import Mathlib

/-!
Shallow embedding of `slide.py` from QuentiumYT/SlideshowPy, and proofs of the
specification claims about it.  Machine reals (Python floats / EXIF rationals)
are modelled by `ℚ`; fallible Python code is modelled with `Except PyErr`.
External effects (the filesystem walk, the file modification time, the HTTP
geocoding response, the decoded pixel dimensions of an image) are inputs to the
embedded functions.
-/

instance {ε α : Type} [DecidableEq ε] [DecidableEq α] : DecidableEq (Except ε α) := fun x y =>
  match x, y with
  | .ok a, .ok b =>
    if h : a = b then .isTrue (by rw [h]) else .isFalse (fun hc => h (Except.ok.inj hc))
  | .error e, .error f =>
    if h : e = f then .isTrue (by rw [h]) else .isFalse (fun hc => h (Except.error.inj hc))
  | .ok _, .error _ => .isFalse (fun hc => Except.noConfusion hc)
  | .error _, .ok _ => .isFalse (fun hc => Except.noConfusion hc)

/-- The Python exceptions that the embedded fragments of `slide.py` can raise. -/
inductive PyErr where
  | indexError
  | unboundLocalError
  | typeError
  | valueError
  | keyError
  | requestException
  | jsonDecodeError
  deriving DecidableEq

/-- Embeds `slide.py` line 37: the recognised image file extensions. -/
def image_extensions : List String := [".jpg", ".jpeg", ".png", ".gif"]

/-- Python `str.lower` (ASCII case folding suffices for the extension test). -/
def strToLower (s : String) : String := String.mk (s.data.map Char.toLower)

/-- Python `str.endswith`. -/
def strEndsWith (s suffix : String) : Bool := List.isSuffixOf suffix.data s.data

/-- Embeds `slide.py` line 37: `any(file.lower().endswith(x) for x in [...])`. -/
def is_image_file (file : String) : Bool :=
  image_extensions.any (fun x => strEndsWith (strToLower file) x)

/-- Embeds `slide.py` `get_images` (lines 31-41): walk the directory, keep files with an
image extension, then `random.shuffle` the list.  The directory walk is an
external effect, modelled by the list `files` of file paths encountered; the
shuffle is modelled by a function argument (theorems assume it permutes its
input, which is all `random.shuffle` guarantees). -/
def get_images (files : List String) (shuffle : List String → List String) : List String :=
  shuffle (files.filter is_image_file)

/-- Embeds `slide.py` lines 47-49, the select-and-advance step of `start_slideshow`:
`image = self.image_list[self.current_id]` (an `IndexError` on an empty list)
followed by `self.current_id = (self.current_id + 1) % len(self.image_list)`. -/
def seq_next (l : List String) (i : Nat) : Except PyErr (String × Nat) :=
  match l[i]? with
  | some img => .ok (img, (i + 1) % l.length)
  | none => .error .indexError

/-- Iterated `seq_next` starting from `current_id = 0` (the value set in
`__init__`): the image shown at tick `k` together with the cursor after it. -/
def slideshow_shows (l : List String) : Nat → Except PyErr (String × Nat)
  | 0 => seq_next l 0
  | k + 1 =>
    match slideshow_shows l k with
    | .error e => .error e
    | .ok (_, i) => seq_next l i

/-- Embeds `slide.py` line 80: `lambda dms: float(dms[0]) + float(dms[1]) / 60 + float(dms[2]) / 3600`. -/
def dms_to_decimal (dms : ℚ × ℚ × ℚ) : ℚ := dms.1 + dms.2.1 / 60 + dms.2.2 / 3600

/-- A value stored in an EXIF GPS-info block: a string (the hemisphere
references), a degrees/minutes/seconds triple, or a single rational
(the altitude). -/
inductive GpsVal where
  | str (s : String)
  | dms (d m s : ℚ)
  | rat (q : ℚ)
  deriving DecidableEq

/-- Pillow's `ExifTags.GPSTAGS` table: numeric GPS IFD tag ids to names. -/
def GPSTAGS : Nat → Option String
  | 0 => some "GPSVersionID"
  | 1 => some "GPSLatitudeRef"
  | 2 => some "GPSLatitude"
  | 3 => some "GPSLongitudeRef"
  | 4 => some "GPSLongitude"
  | 5 => some "GPSAltitudeRef"
  | 6 => some "GPSAltitude"
  | 7 => some "GPSTimeStamp"
  | 8 => some "GPSSatellites"
  | 9 => some "GPSStatus"
  | 10 => some "GPSMeasureMode"
  | 11 => some "GPSDOP"
  | 12 => some "GPSSpeedRef"
  | 13 => some "GPSSpeed"
  | 14 => some "GPSTrackRef"
  | 15 => some "GPSTrack"
  | 16 => some "GPSImgDirectionRef"
  | 17 => some "GPSImgDirection"
  | 18 => some "GPSMapDatum"
  | 19 => some "GPSDestLatitudeRef"
  | 20 => some "GPSDestLatitude"
  | 21 => some "GPSDestLongitudeRef"
  | 22 => some "GPSDestLongitude"
  | 23 => some "GPSDestBearingRef"
  | 24 => some "GPSDestBearing"
  | 25 => some "GPSDestDistanceRef"
  | 26 => some "GPSDestDistance"
  | 27 => some "GPSProcessingMethod"
  | 28 => some "GPSAreaInformation"
  | 29 => some "GPSDateStamp"
  | 30 => some "GPSDifferential"
  | 31 => some "GPSHPositioningError"
  | _ => none

/-- Python `dict.get` on a dict built from an association list by a dict
comprehension: the *last* binding of a key wins. -/
def dictGet {α : Type} (m : List (String × α)) (k : String) : Option α :=
  m.foldl (fun acc kv => if kv.1 = k then some kv.2 else acc) none

/-- Embeds `slide.py` line 82: `{ExifTags.GPSTAGS[k]: v for k, v in gps_info.items() if k in ExifTags.GPSTAGS}`. -/
def coords_data_of (gps_info : List (Nat × GpsVal)) : List (String × GpsVal) :=
  gps_info.filterMap (fun kv => (GPSTAGS kv.1).map (fun name => (name, kv.2)))

/-- Applying the `dms_to_decimal` lambda to a `dict.get` result: subscripting
`None` (absent key) or a non-sequence raises a `TypeError`. -/
def asDmsValue : Option GpsVal → Except PyErr ℚ
  | some (.dms d m s) => .ok (dms_to_decimal (d, m, s))
  | _ => .error .typeError

/-- Python's `round` on an exact rational (`fractions.Fraction` /
`PIL.TiffImagePlugin.IFDRational` semantics): round half to even. -/
def pyRound (q : ℚ) : ℤ :=
  if Int.fract q < 1 / 2 then ⌊q⌋
  else if 1 / 2 < Int.fract q then ⌊q⌋ + 1
  else if Even ⌊q⌋ then ⌊q⌋ else ⌊q⌋ + 1

/-- Embeds `round(coords_data.get("GPSAltitude"))`: `round(None)` (absent key) or a
non-numeric value raises a `TypeError`. -/
def asRoundedAlt : Option GpsVal → Except PyErr ℤ
  | some (.rat q) => .ok (pyRound q)
  | _ => .error .typeError

/-- Embeds `slide.py` `get_image_coords` (lines 75-94).  `lat`, `lon` and `alt` are
assigned only inside `if coords_data:`, so when the filtered mapping is empty
the trailing `return lat, lon, alt` raises an `UnboundLocalError`.  The
hemisphere checks compare the raw `dict.get` result against `"N"` / `"E"`
(an absent reference compares unequal and so also negates). -/
def get_image_coords (gps_info : List (Nat × GpsVal)) : Except PyErr (ℚ × ℚ × ℤ) :=
  let coords_data := coords_data_of gps_info
  if coords_data = [] then .error .unboundLocalError
  else
    match asDmsValue (dictGet coords_data "GPSLatitude") with
    | .error e => .error e
    | .ok lat0 =>
      match asDmsValue (dictGet coords_data "GPSLongitude") with
      | .error e => .error e
      | .ok lon0 =>
        match asRoundedAlt (dictGet coords_data "GPSAltitude") with
        | .error e => .error e
        | .ok alt =>
          let lat := if dictGet coords_data "GPSLatitudeRef" ≠ some (.str "N") then -lat0 else lat0
          let lon := if dictGet coords_data "GPSLongitudeRef" ≠ some (.str "E") then -lon0 else lon0
          .ok (lat, lon, alt)

/-- A GPS-info block laid out the way EXIF stores it (the canonical tag ids:
1 `GPSLatitudeRef`, 2 `GPSLatitude`, 3 `GPSLongitudeRef`, 4 `GPSLongitude`,
6 `GPSAltitude`). -/
def stdGpsBlock (latRef : String) (d1 m1 s1 : ℚ) (lonRef : String) (d2 m2 s2 : ℚ)
    (altv : ℚ) : List (Nat × GpsVal) :=
  [(1, .str latRef), (2, .dms d1 m1 s1), (3, .str lonRef), (4, .dms d2 m2 s2), (6, .rat altv)]

example : coords_data_of (stdGpsBlock "N" 1 2 3 "E" 4 5 6 7) =
    [("GPSLatitudeRef", .str "N"), ("GPSLatitude", .dms 1 2 3),
     ("GPSLongitudeRef", .str "E"), ("GPSLongitude", .dms 4 5 6),
     ("GPSAltitude", .rat 7)] := rfl

/-- Reduction of `get_image_coords` on a canonical GPS block: the latitude is
negated exactly when the latitude reference is not `"N"`, the longitude exactly
when the longitude reference is not `"E"`, and the altitude is rounded. -/
lemma get_image_coords_std (latRef lonRef : String) (d1 m1 s1 d2 m2 s2 altv : ℚ) :
    get_image_coords (stdGpsBlock latRef d1 m1 s1 lonRef d2 m2 s2 altv) =
      .ok ((if latRef = "N" then dms_to_decimal (d1, m1, s1) else -dms_to_decimal (d1, m1, s1)),
           (if lonRef = "E" then dms_to_decimal (d2, m2, s2) else -dms_to_decimal (d2, m2, s2)),
           pyRound altv) := by
  have key : get_image_coords (stdGpsBlock latRef d1 m1 s1 lonRef d2 m2 s2 altv) =
      .ok ((if some (GpsVal.str latRef) ≠ some (GpsVal.str "N") then
              -dms_to_decimal (d1, m1, s1) else dms_to_decimal (d1, m1, s1)),
           (if some (GpsVal.str lonRef) ≠ some (GpsVal.str "E") then
              -dms_to_decimal (d2, m2, s2) else dms_to_decimal (d2, m2, s2)),
           pyRound altv) := rfl
  rw [key]
  by_cases hN : latRef = "N" <;> by_cases hE : lonRef = "E" <;> simp [hN, hE]

example : get_image_coords (stdGpsBlock "N" 1 30 0 "E" 2 0 0 10) =
    .ok (3/2, 2, 10) := by
  rw [get_image_coords_std]
  norm_num [dms_to_decimal, pyRound, Int.fract]

example : get_image_coords (stdGpsBlock "S" 1 30 0 "W" 2 0 0 10) =
    .ok (-(3/2), -2, 10) := by
  rw [get_image_coords_std]
  norm_num [dms_to_decimal, pyRound, Int.fract, if_neg (by decide : ¬("S" = "N")),
    if_neg (by decide : ¬("W" = "E"))]

example : get_image_coords [(999, GpsVal.rat 0)] = .error .unboundLocalError := rfl

/-- A calendar date and time of day, as held by a Python `datetime`. -/
structure DateTime where
  year : Nat
  month : Nat
  day : Nat
  hour : Nat
  minute : Nat
  second : Nat
  deriving DecidableEq

/-- Zero-pad a number to two digits (`strftime` `%d`, `%m`, `%H`, `%M`, `%S`). -/
def pad2 (n : Nat) : String := if n < 10 then "0" ++ toString n else toString n

/-- Zero-pad a year to four digits (`strftime` `%Y` as CPython emits it). -/
def pad4 (n : Nat) : String :=
  if n < 10 then "000" ++ toString n
  else if n < 100 then "00" ++ toString n
  else if n < 1000 then "0" ++ toString n
  else toString n

/-- Embeds `slide.py` line 73: `date.strftime("%d/%m/%Y %H:%M:%S")`. -/
def strftime_ddmmyyyy (dt : DateTime) : String :=
  pad2 dt.day ++ "/" ++ pad2 dt.month ++ "/" ++ pad4 dt.year ++ " " ++
    pad2 dt.hour ++ ":" ++ pad2 dt.minute ++ ":" ++ pad2 dt.second

/-- CPython `strptime` `%Y`: exactly four digits. -/
def parseYear : List Char → Option (Nat × List Char)
  | a :: b :: c :: d :: rest =>
    if a.isDigit ∧ b.isDigit ∧ c.isDigit ∧ d.isDigit then
      some (1000 * (a.toNat - 48) + 100 * (b.toNat - 48) + 10 * (c.toNat - 48) + (d.toNat - 48),
        rest)
    else none
  | _ => none

/-- CPython `strptime` `%m`: the regex `1[0-2]|0[1-9]|[1-9]`, leftmost
alternative first. -/
def parseMonth : List Char → Option (Nat × List Char)
  | '1' :: c :: rest =>
    if '0' ≤ c ∧ c ≤ '2' then some (10 + (c.toNat - 48), rest) else some (1, c :: rest)
  | '0' :: c :: rest =>
    if '1' ≤ c ∧ c ≤ '9' then some (c.toNat - 48, rest) else none
  | c :: rest => if '1' ≤ c ∧ c ≤ '9' then some (c.toNat - 48, rest) else none
  | [] => none

/-- CPython `strptime` `%d`: the regex `3[01]|[12]\d|0[1-9]|[1-9]`. -/
def parseDay : List Char → Option (Nat × List Char)
  | '3' :: c :: rest =>
    if c = '0' ∨ c = '1' then some (30 + (c.toNat - 48), rest) else some (3, c :: rest)
  | '1' :: c :: rest =>
    if c.isDigit then some (10 + (c.toNat - 48), rest) else some (1, c :: rest)
  | '2' :: c :: rest =>
    if c.isDigit then some (20 + (c.toNat - 48), rest) else some (2, c :: rest)
  | '0' :: c :: rest =>
    if '1' ≤ c ∧ c ≤ '9' then some (c.toNat - 48, rest) else none
  | c :: rest => if '1' ≤ c ∧ c ≤ '9' then some (c.toNat - 48, rest) else none
  | [] => none

/-- CPython `strptime` `%H`: the regex `2[0-3]|[0-1]\d|\d`. -/
def parseHour : List Char → Option (Nat × List Char)
  | '2' :: c :: rest =>
    if '0' ≤ c ∧ c ≤ '3' then some (20 + (c.toNat - 48), rest) else some (2, c :: rest)
  | '0' :: c :: rest =>
    if c.isDigit then some (c.toNat - 48, rest) else some (0, c :: rest)
  | '1' :: c :: rest =>
    if c.isDigit then some (10 + (c.toNat - 48), rest) else some (1, c :: rest)
  | c :: rest => if c.isDigit then some (c.toNat - 48, rest) else none
  | [] => none

/-- CPython `strptime` `%M` and `%S`: the regex `[0-5]\d|\d`. -/
def parseMinSec : List Char → Option (Nat × List Char)
  | a :: b :: rest =>
    if ('0' ≤ a ∧ a ≤ '5') ∧ b.isDigit then
      some (10 * (a.toNat - 48) + (b.toNat - 48), rest)
    else if a.isDigit then some (a.toNat - 48, b :: rest)
    else none
  | [a] => if a.isDigit then some (a.toNat - 48, []) else none
  | [] => none

/-- Match one literal character of the format string. -/
def expectChar (c : Char) : List Char → Option (List Char)
  | x :: rest => if x = c then some rest else none
  | [] => none

/-- Gregorian leap year, as `datetime` validates it. -/
def isLeap (y : Nat) : Bool := (y % 4 = 0 && y % 100 ≠ 0) || y % 400 = 0

/-- Days in a month, as the `datetime` constructor validates the day. -/
def daysInMonth (y m : Nat) : Nat :=
  if m = 2 then (if isLeap y then 29 else 28)
  else if m = 4 ∨ m = 6 ∨ m = 9 ∨ m = 11 then 30
  else 31

/-- Embeds `datetime.strptime(s, "%Y:%m:%d %H:%M:%S")` (`slide.py` line 69): the whole
input must be consumed, and the `datetime` constructor additionally requires
`year ≥ 1` and a day that exists in the given month. -/
def strptime_exif (s : String) : Option DateTime := do
  let (y, r1) ← parseYear s.data
  let r2 ← expectChar ':' r1
  let (mo, r3) ← parseMonth r2
  let r4 ← expectChar ':' r3
  let (d, r5) ← parseDay r4
  let r6 ← expectChar ' ' r5
  let (h, r7) ← parseHour r6
  let r8 ← expectChar ':' r7
  let (mi, r9) ← parseMinSec r8
  let r10 ← expectChar ':' r9
  let (se, r11) ← parseMinSec r10
  match r11 with
  | [] => if 1 ≤ y ∧ d ≤ daysInMonth y mo then some ⟨y, mo, d, h, mi, se⟩ else none
  | _ => none

example : strptime_exif "2021:05:10 14:30:00" = some ⟨2021, 5, 10, 14, 30, 0⟩ := by decide
example : strptime_exif "2021:02:30 14:30:00" = none := by decide
example : strptime_exif "" = none := rfl

/-- A value stored in the top-level EXIF tag dictionary: a string (the date
tags) or a nested GPS-info dictionary. -/
inductive ExifVal where
  | str (s : String)
  | gps (g : List (Nat × GpsVal))
  deriving DecidableEq

/-- Embeds `slide.py` `get_image_date` (lines 64-73).  The raw EXIF date is the value
`dict.get` produced: `None` when absent.  Python's truthiness test
`if image_date:` treats the empty string as absent; `strptime` on a
non-matching string raises a `ValueError` and on a non-string a `TypeError`.
The file's modification time (`os.stat(...).st_mtime`, an external input) is
modelled as the already-decoded local `DateTime`. -/
def get_image_date (mtime : DateTime) (image_date : Option ExifVal) : Except PyErr String :=
  match image_date with
  | some (.str raw) =>
    if raw = "" then .ok (strftime_ddmmyyyy mtime)
    else
      match strptime_exif raw with
      | some dt => .ok (strftime_ddmmyyyy dt)
      | none => .error .valueError
  | some _ => .error .typeError
  | none => .ok (strftime_ddmmyyyy mtime)

example : get_image_date ⟨2000, 1, 2, 3, 4, 5⟩ (some (.str "2021:05:10 14:30:00")) =
    .ok "10/05/2021 14:30:00" := by decide
example : get_image_date ⟨2000, 1, 2, 3, 4, 5⟩ none = .ok "02/01/2000 03:04:05" := by decide

/-- The first element of the geocoder's `data` list: a JSON object whose
`name` and `locality` keys may each be absent. -/
structure GeoPlace where
  name : Option String
  locality : Option String
  deriving DecidableEq

/-- The outcome of `requests.get` on the positionstack reverse-geocoding URL
(`slide.py` lines 100-102), an external effect modelled as an input: the
request can raise, the body can fail to decode as JSON, and the decoded JSON
can lack the `data` key or hold an empty or malformed `data` list. -/
inductive GeoResponse where
  | networkFailure
  | notJson
  | json (data : Option (List GeoPlace))
  deriving DecidableEq

/-- Embeds `slide.py` `get_image_location` (lines 96-104):
`req.json()["data"][0]["name"] + ", " + req.json()["data"][0]["locality"]`
with no exception handling: a failed request propagates
`requests.RequestException`, a non-JSON body `JSONDecodeError`, a missing
`data` or `name`/`locality` key a `KeyError`, and an empty `data` list an
`IndexError`. -/
def get_image_location (resp : GeoResponse) : Except PyErr String :=
  match resp with
  | .networkFailure => .error .requestException
  | .notJson => .error .jsonDecodeError
  | .json none => .error .keyError
  | .json (some []) => .error .indexError
  | .json (some (p :: _)) =>
    match p.name, p.locality with
    | some n, some l => .ok (n ++ ", " ++ l)
    | _, _ => .error .keyError

/-- The failure modes of the geocoding lookup named by the specification:
network failure, undecodable body, missing `data`, empty result set, or a
first result lacking `name` or `locality`. -/
def GeoResponse.isFailure : GeoResponse → Bool
  | .networkFailure => true
  | .notJson => true
  | .json none => true
  | .json (some []) => true
  | .json (some (p :: _)) => p.name.isNone || p.locality.isNone

example : get_image_location (.json (some [⟨some "Tour Eiffel", some "Paris"⟩])) =
    .ok "Tour Eiffel, Paris" := rfl
example : get_image_location (.json (some [])) = .error .indexError := rfl

/-- Pillow's `Image.thumbnail` rounding helper:
`max(min(math.floor(number), math.ceil(number), key=key), 1)`.  Python's
two-argument `min` with a key returns the first argument when the keys tie. -/
def round_aspect (q : ℚ) (key : ℤ → ℚ) : ℤ :=
  max (if key ⌊q⌋ ≤ key ⌈q⌉ then ⌊q⌋ else ⌈q⌉) 1

/-- Pillow's `aspect = self.width / self.height`, modelled exactly over `ℚ`. -/
def thumbAspect (w h : Nat) : ℚ := (w : ℚ) / (h : ℚ)

/-- Pillow's `Image.thumbnail((screen_w, screen_h), LANCZOS)` size computation
(`slide.py` line 124): if the image already fits the target box it is left
unchanged; otherwise the longer-relative side is clamped to the box and the
other side is rounded from the exact aspect-ratio value.  Pillow's float
arithmetic is modelled exactly over `ℚ`. -/
def thumbnail (w h sw sh : Nat) : Nat × Nat :=
  if sw ≥ w ∧ sh ≥ h then (w, h)
  else if thumbAspect w h ≤ (sw : ℚ) / (sh : ℚ) then
    ((round_aspect ((sh : ℚ) * thumbAspect w h)
      (fun n => |thumbAspect w h - (n : ℚ) / (sh : ℚ)|)).toNat, sh)
  else
    (sw, (round_aspect ((sw : ℚ) / thumbAspect w h)
      (fun n => if n = 0 then 0 else |thumbAspect w h - (sw : ℚ) / (n : ℚ)|)).toNat)

/-- The subset of Pillow's `ExifTags.TAGS` table that `show_image` looks up
(306 `DateTime`, 34853 `GPSInfo`, 36867 `DateTimeOriginal`).  No other tag id
maps to one of these three names in Pillow's table, so eliding the remaining
ids cannot change any lookup `show_image` performs. -/
def TAGS : Nat → Option String
  | 306 => some "DateTime"
  | 34853 => some "GPSInfo"
  | 36867 => some "DateTimeOriginal"
  | _ => none

/-- Embeds `slide.py` `parse_image_data` (lines 53-62): `image_obj._getexif()` returns
`None` or a dict (modelled as the `rawExif` input);
`if not exif: return {}`, then
`{ExifTags.TAGS[k]: v for k, v in exif.items() if k in ExifTags.TAGS}`. -/
def parse_image_data (rawExif : Option (List (Nat × ExifVal))) : List (String × ExifVal) :=
  match rawExif with
  | none => []
  | some exif => exif.filterMap (fun kv => (TAGS kv.1).map (fun name => (name, kv.2)))

/-- Embeds `slide.py` line 114: `image_data.get("DateTimeOriginal", image_data.get("DateTime"))`. -/
def dateRawOf (image_data : List (String × ExifVal)) : Option ExifVal :=
  match dictGet image_data "DateTimeOriginal" with
  | some v => some v
  | none => dictGet image_data "DateTime"

/-- Embeds `slide.py` line 115: the truthiness test `if image_data.get("GPSInfo"):` —
an absent key (`None`) and an empty GPS dict are both falsy. -/
def gpsBlockOf (image_data : List (String × ExifVal)) : Option (List (Nat × GpsVal)) :=
  match dictGet image_data "GPSInfo" with
  | some (.gps g) => if g = [] then none else some g
  | _ => none

/-- The data of one rendered slide: the displayed image dimensions and the four
overlay text fields drawn on the canvas (the altitude line is `None` when the
image has no GPS block). -/
structure DisplayFrame where
  dims : Nat × Nat
  date : String
  loc : String
  alt : Option String
  filename : String
  deriving DecidableEq

/-- Python `str.split` on a single-character separator. -/
def splitOnSep (sep : Char) : List Char → List (List Char)
  | [] => [[]]
  | c :: rest =>
    let r := splitOnSep sep rest
    if c = sep then [] :: r
    else
      match r with
      | [] => [[c]]
      | g :: gs => (c :: g) :: gs

/-- Embeds `slide.py` line 112: `filepath.split(os.sep)[-1]` with `os.sep = "/"`. -/
def basename (filepath : String) : String :=
  String.mk ((splitOnSep '/' filepath.data).getLastD [])

/-- The externally observable content of one image file: its pixel dimensions
and its raw EXIF dictionary (`None` when the file has no EXIF block). -/
structure ImageFile where
  width : Nat
  height : Nat
  rawExif : Option (List (Nat × ExifVal))
  deriving DecidableEq

/-- Embeds `slide.py` `show_image` (lines 106-136).  Returns the composed frame
together with whether the geocoding lookup was invoked; any exception raised
by the date parse, the coordinate extraction or the geocoding lookup
propagates (there is no handler) and nothing is displayed.  When no GPS block
exists the location text is the fixed string `"Lieu non défini"`, the altitude
line is `None`, and the geocoder is not called. -/
def show_image (screen_w screen_h : Nat) (filepath : String) (img : ImageFile)
    (mtime : DateTime) (resp : GeoResponse) : Except PyErr (DisplayFrame × Bool) :=
  let filename := basename filepath
  let image_data := parse_image_data img.rawExif
  match get_image_date mtime (dateRawOf image_data) with
  | .error e => .error e
  | .ok image_date =>
    match gpsBlockOf image_data with
    | some g =>
      match get_image_coords g with
      | .error e => .error e
      | .ok (_, _, alt) =>
        let image_alt := "Altitude : " ++ toString alt ++ "m"
        match get_image_location resp with
        | .error e => .error e
        | .ok image_loc =>
          .ok (⟨thumbnail img.width img.height screen_w screen_h,
                image_date, image_loc, some image_alt, filename⟩, true)
    | none =>
      .ok (⟨thumbnail img.width img.height screen_w screen_h,
            image_date, "Lieu non défini", none, filename⟩, false)

/-- The mutable slideshow state (`self.image_list`, `self.current_id`). -/
structure SlideState where
  image_list : List String
  current_id : Nat
  deriving DecidableEq

/-- Embeds `slide.py` line 43: the default value of `start_slideshow`'s `delay`
parameter. -/
def start_slideshow_default_delay : Nat := 4

/-- Embeds `slide.py` `start_slideshow` (lines 43-51): select the image at the
cursor (an `IndexError` on an empty list), advance the cursor modulo the list
length, display the image (any exception propagates and the tick aborts), then
`self.after(delay * 1000, self.start_slideshow)` — the callback is passed
*without* an argument, so the scheduled call will run with the default delay.
The result carries the frame, whether the geocoder ran, the new state, the
milliseconds until the scheduled call, and the `delay` value that scheduled
call will use. -/
def start_slideshow_full (files : String → ImageFile) (mtimes : String → DateTime)
    (resp : GeoResponse) (sw sh : Nat) (s : SlideState) (delay : Nat) :
    Except PyErr (DisplayFrame × Bool × SlideState × Nat × Nat) :=
  match seq_next s.image_list s.current_id with
  | .error e => .error e
  | .ok (image, i) =>
    match show_image sw sh image (files image) (mtimes image) resp with
    | .error e => .error e
    | .ok (frame, called) =>
      .ok (frame, called, ⟨s.image_list, i⟩, delay * 1000, start_slideshow_default_delay)

/-- A 400×300 image with no EXIF block. -/
def noGpsImage : ImageFile := ⟨400, 300, none⟩

/-- A 2000×1000 image whose EXIF holds only a GPS block. -/
def gpsImage : ImageFile := ⟨2000, 1000, some [(34853, .gps (stdGpsBlock "N" 48 51 24 "E" 2 21 3 35))]⟩

/-- A fixed file modification time used by concrete witnesses. -/
def sampleMtime : DateTime := ⟨2021, 1, 1, 0, 0, 0⟩

example : thumbnail 400 300 800 600 = (400, 300) := by decide
example : basename "img/a.jpg" = "a.jpg" := by decide
example : show_image 800 600 "img/a.jpg" noGpsImage sampleMtime .networkFailure =
    .ok (⟨(400, 300), "01/01/2021 00:00:00", "Lieu non défini", none, "a.jpg"⟩, false) := by
  decide

/-!
## Helper lemmas
-/

/-- Evaluation of `seq_next` at a valid cursor. -/
lemma seq_next_of_lt (l : List String) (i : Nat) (h : i < l.length) :
    seq_next l i = .ok (l.getD i "", (i + 1) % l.length) := by
  rw [seq_next, List.getElem?_eq_getElem h]
  rw [List.getD_eq_getElem?_getD, List.getElem?_eq_getElem h]
  rfl

/-- Closed form of the iterated select-and-advance step on a non-empty list:
tick `k` shows element `k mod length` and leaves the cursor at
`(k + 1) mod length`. -/
lemma slideshow_shows_closed (l : List String) (hne : l ≠ []) (k : Nat) :
    slideshow_shows l k = .ok (l.getD (k % l.length) "", (k + 1) % l.length) := by
  have hlen : 0 < l.length := List.length_pos.mpr hne
  induction k with
  | zero =>
    rw [slideshow_shows, seq_next_of_lt l 0 hlen, Nat.zero_mod]
  | succ k ih =>
    rw [slideshow_shows, ih]
    show seq_next l ((k + 1) % l.length) = _
    rw [seq_next_of_lt l ((k + 1) % l.length) (Nat.mod_lt _ hlen), Nat.mod_add_mod]

/-- The first `length` ticks replay the list itself, in order. -/
lemma first_cycle_eq (l : List String) :
    (List.range l.length).map (fun k => l.getD (k % l.length) "") = l := by
  apply List.ext_getElem
  · simp
  · intro n h1 h2
    rw [List.getElem_map, List.getElem_range]
    have hn : n % l.length = n := Nat.mod_eq_of_lt (by simpa using h2)
    rw [hn, List.getD_eq_getElem?_getD, List.getElem?_eq_getElem h2]
    rfl

/-!
## Claim theorems
-/

/-- C1: for every non-empty duplicate-free set of discovered image paths and
every shuffle (any permutation, as produced by `random.shuffle`), iterating
`start_slideshow`'s select-and-advance step from cursor 0 (i) shows the element
at the cursor and advances the cursor by one modulo the sequence length,
(ii) replays exactly the shuffled sequence over the first `length` ticks,
(iii) hence visits every path exactly once before any repeat, and (iv) replays
the identical permutation on the next cycle, with no mid-cycle reshuffle. -/
theorem c1_cycle_complete (files : List String) (shuffle : List String → List String)
    (hperm : ∀ l, (shuffle l).Perm l)
    (hne : files.filter is_image_file ≠ [])
    (hnd : (files.filter is_image_file).Nodup) :
    (∀ k, slideshow_shows (get_images files shuffle) k =
        .ok ((get_images files shuffle).getD (k % (get_images files shuffle).length) "",
             (k + 1) % (get_images files shuffle).length)) ∧
    ((List.range (get_images files shuffle).length).map
        (fun k => (get_images files shuffle).getD (k % (get_images files shuffle).length) "")
      = get_images files shuffle) ∧
    (∀ p ∈ get_images files shuffle,
      ((List.range (get_images files shuffle).length).map
          (fun k => (get_images files shuffle).getD
            (k % (get_images files shuffle).length) "")).count p = 1) ∧
    (∀ k, slideshow_shows (get_images files shuffle) (k + (get_images files shuffle).length) =
        slideshow_shows (get_images files shuffle) k) := by
  have hp : (get_images files shuffle).Perm (files.filter is_image_file) :=
    hperm (files.filter is_image_file)
  have hne' : get_images files shuffle ≠ [] := by
    intro h
    have := hp.length_eq
    rw [h] at this
    exact hne (List.eq_nil_of_length_eq_zero this.symm)
  have hnd' : (get_images files shuffle).Nodup := hp.symm.nodup hnd
  refine ⟨slideshow_shows_closed _ hne', first_cycle_eq _, ?_, ?_⟩
  · intro p hps
    rw [first_cycle_eq]
    exact List.count_eq_one_of_mem hnd' hps
  · intro k
    rw [slideshow_shows_closed _ hne', slideshow_shows_closed _ hne']
    rw [Nat.add_mod_right]
    rw [show k + (get_images files shuffle).length + 1 =
      (k + 1) + (get_images files shuffle).length from by omega, Nat.add_mod_right]

/-- Witness for C1 at a concrete directory listing (`note.txt` is filtered out,
the identity permutation stands in for one outcome of `random.shuffle`):
tick 0 shows the first element and advances the cursor to 1. -/
theorem c1_cycle_complete_witness :
    slideshow_shows (get_images ["a.jpg", "b.png", "note.txt"] (fun l => l)) 0 =
      .ok ((get_images ["a.jpg", "b.png", "note.txt"] (fun l => l)).getD
             (0 % (get_images ["a.jpg", "b.png", "note.txt"] (fun l => l)).length) "",
           (0 + 1) % (get_images ["a.jpg", "b.png", "note.txt"] (fun l => l)).length) :=
  (c1_cycle_complete ["a.jpg", "b.png", "note.txt"] (fun l => l)
    (fun l => List.Perm.refl l) (by decide) (by decide)).1 0

/-- C9: on an empty image list, the first `start_slideshow` call raises an
`IndexError` before anything is displayed or scheduled: the sequencer returns
no element and no tick loop is entered. -/
theorem c9_empty_fails (i delay : Nat) (files : String → ImageFile)
    (mtimes : String → DateTime) (resp : GeoResponse) (sw sh : Nat) :
    seq_next [] i = .error .indexError ∧
    start_slideshow_full files mtimes resp sw sh ⟨[], i⟩ delay = .error .indexError :=
  ⟨rfl, rfl⟩

/-- C5: the DMS-to-decimal conversion satisfies
`toDecimal(d, m, s) = d + m/60 + s/3600` for all inputs, maps `(1,0,0)` to `1`
and `(0,30,0)` to `1/2`, and is monotone non-decreasing in each argument. -/
theorem c5_dms_to_decimal :
    (∀ d m s : ℚ, dms_to_decimal (d, m, s) = d + m / 60 + s / 3600) ∧
    dms_to_decimal (1, 0, 0) = 1 ∧
    dms_to_decimal (0, 30, 0) = 1 / 2 ∧
    (∀ d d' m s : ℚ, d ≤ d' → dms_to_decimal (d, m, s) ≤ dms_to_decimal (d', m, s)) ∧
    (∀ d m m' s : ℚ, m ≤ m' → dms_to_decimal (d, m, s) ≤ dms_to_decimal (d, m', s)) ∧
    (∀ d m s s' : ℚ, s ≤ s' → dms_to_decimal (d, m, s) ≤ dms_to_decimal (d, m, s')) := by
  refine ⟨fun d m s => rfl, by norm_num [dms_to_decimal], by norm_num [dms_to_decimal],
    ?_, ?_, ?_⟩ <;>
  · intro a b c e h
    simp only [dms_to_decimal]
    gcongr

/-- Witness for C5's monotonicity conjuncts at concrete inputs. -/
theorem c5_dms_to_decimal_witness :
    dms_to_decimal (0, 1, 0) ≤ dms_to_decimal (0, 2, 0) ∧
    dms_to_decimal (1, 0, 0) ≤ dms_to_decimal (2, 0, 0) ∧
    dms_to_decimal (0, 0, 1) ≤ dms_to_decimal (0, 0, 2) :=
  ⟨c5_dms_to_decimal.2.2.2.2.1 0 1 2 0 (by norm_num),
   c5_dms_to_decimal.2.2.2.1 1 2 0 0 (by norm_num),
   c5_dms_to_decimal.2.2.2.2.2 0 0 1 2 (by norm_num)⟩

/-- C6: on a GPS block whose DMS magnitudes convert to a positive value, the
converted latitude is negated exactly when the latitude reference is not
`"N"` and the longitude exactly when the longitude reference is not `"E"`;
reference `"N"` keeps the latitude positive, reference `"S"` makes it
negative. -/
theorem c6_sign_correction (latRef lonRef : String) (d1 m1 s1 d2 m2 s2 altv : ℚ)
    (hlat : 0 < dms_to_decimal (d1, m1, s1)) (hlon : 0 < dms_to_decimal (d2, m2, s2)) :
    ∃ la lo al,
      get_image_coords (stdGpsBlock latRef d1 m1 s1 lonRef d2 m2 s2 altv) = .ok (la, lo, al) ∧
      la = (if latRef = "N" then dms_to_decimal (d1, m1, s1) else -dms_to_decimal (d1, m1, s1)) ∧
      lo = (if lonRef = "E" then dms_to_decimal (d2, m2, s2) else -dms_to_decimal (d2, m2, s2)) ∧
      (latRef = "N" → 0 < la) ∧
      (latRef = "S" → la < 0) ∧
      (lonRef = "E" → 0 < lo) ∧
      (lonRef = "W" → lo < 0) := by
  refine ⟨_, _, _, get_image_coords_std latRef lonRef d1 m1 s1 d2 m2 s2 altv,
    rfl, rfl, ?_, ?_, ?_, ?_⟩
  · intro h
    simpa [h] using hlat
  · intro h
    have : latRef ≠ "N" := by simp [h]
    simpa [this] using hlat
  · intro h
    simpa [h] using hlon
  · intro h
    have : lonRef ≠ "E" := by simp [h]
    simpa [this] using hlon

/-- Witness for C6 at a southern/western reference with concrete magnitudes. -/
theorem c6_sign_correction_witness :
    ∃ la lo al,
      get_image_coords (stdGpsBlock "S" 33 51 54 "W" 151 12 36 58) = .ok (la, lo, al) ∧
      la = (if "S" = "N" then dms_to_decimal (33, 51, 54) else -dms_to_decimal (33, 51, 54)) ∧
      lo = (if "W" = "E" then dms_to_decimal (151, 12, 36) else -dms_to_decimal (151, 12, 36)) ∧
      ("S" = "N" → 0 < la) ∧
      ("S" = "S" → la < 0) ∧
      ("W" = "E" → 0 < lo) ∧
      ("W" = "W" → lo < 0) :=
  c6_sign_correction "S" "W" 33 51 54 151 12 36 58
    (by norm_num [dms_to_decimal]) (by norm_num [dms_to_decimal])

/-- C10: whenever the GPS-info dictionary contains no recognised GPS tag (the
filtered coordinate mapping is empty), `get_image_coords` raises an
`UnboundLocalError` instead of returning a coordinate triple, because the
`return lat, lon, alt` statement reads names only assigned inside the
`if coords_data:` branch. -/
theorem c10_unbound_local (gps_info : List (Nat × GpsVal))
    (h : coords_data_of gps_info = []) :
    get_image_coords gps_info = .error .unboundLocalError := by
  rw [get_image_coords]
  simp [h]

/-- Witness for C10: a GPS block holding a single unrecognised tag id. -/
theorem c10_unbound_local_witness :
    get_image_coords [(999, GpsVal.rat 0)] = .error .unboundLocalError :=
  c10_unbound_local [(999, GpsVal.rat 0)] rfl

/-- C7: given a raw EXIF date string that `strptime` accepts against
`"%Y:%m:%d %H:%M:%S"`, `get_image_date` reformats it as
`DD/MM/YYYY HH:MM:SS`; `"2021:05:10 14:30:00"` yields
`"10/05/2021 14:30:00"`; and with no raw string it formats the file's
modification time the same way. -/
theorem c7_resolve_date (mt mt2 : DateTime) (raw : String) (dt : DateTime)
    (h : strptime_exif raw = some dt) :
    get_image_date mt (some (.str raw)) = .ok (strftime_ddmmyyyy dt) ∧
    get_image_date mt2 none = .ok (strftime_ddmmyyyy mt2) ∧
    get_image_date mt (some (.str "2021:05:10 14:30:00")) = .ok "10/05/2021 14:30:00" := by
  refine ⟨?_, rfl, rfl⟩
  have hne : raw ≠ "" := by
    intro he
    rw [he] at h
    exact Option.noConfusion ((rfl : strptime_exif "" = none) ▸ h)
  rw [get_image_date]
  simp [hne, h]

/-- Witness for C7 at a concrete parseable raw date. -/
theorem c7_resolve_date_witness :
    get_image_date ⟨2000, 1, 2, 3, 4, 5⟩ (some (.str "1999:12:31 23:59:59")) =
      .ok (strftime_ddmmyyyy ⟨1999, 12, 31, 23, 59, 59⟩) ∧
    get_image_date ⟨2000, 1, 2, 3, 4, 5⟩ none = .ok (strftime_ddmmyyyy ⟨2000, 1, 2, 3, 4, 5⟩) ∧
    get_image_date ⟨2000, 1, 2, 3, 4, 5⟩ (some (.str "2021:05:10 14:30:00")) =
      .ok "10/05/2021 14:30:00" :=
  c7_resolve_date ⟨2000, 1, 2, 3, 4, 5⟩ ⟨2000, 1, 2, 3, 4, 5⟩ "1999:12:31 23:59:59"
    ⟨1999, 12, 31, 23, 59, 59⟩ (by decide)

/-- C3 counterexample: for an image with no GPS block the geocoder is not
invoked and the altitude line is absent, but the location overlay is the
French string `"Lieu non défini"`, not the claimed `"no location set"`. -/
theorem c3_no_gps_counterexample :
    show_image 800 600 "img/a.jpg" noGpsImage sampleMtime .networkFailure =
      .ok (⟨(400, 300), "01/01/2021 00:00:00", "Lieu non défini", none, "a.jpg"⟩, false) ∧
    "Lieu non défini" ≠ "no location set" := by
  exact ⟨by decide, by decide⟩

/-- C3 as amended: for every image whose extracted metadata contains no
`GPSInfo` entry (and whose date step succeeds), `show_image` renders the fixed
placeholder `"Lieu non défini"` as the location text, omits the altitude line
entirely, and never invokes the geocoding resolver — the result does not
depend on the geocoder's response and the invoked flag is `false`. -/
theorem c3_no_gps_amended (sw sh : Nat) (filepath : String) (img : ImageFile)
    (mtime : DateTime) (resp : GeoResponse) (d : String)
    (hnogps : dictGet (parse_image_data img.rawExif) "GPSInfo" = none)
    (hdate : get_image_date mtime (dateRawOf (parse_image_data img.rawExif)) = .ok d) :
    show_image sw sh filepath img mtime resp =
      .ok (⟨thumbnail img.width img.height sw sh, d, "Lieu non défini", none,
            basename filepath⟩, false) := by
  rw [show_image]
  simp only [hdate, gpsBlockOf, hnogps]

/-- Witness for C3's amended theorem at a concrete EXIF-free image. -/
theorem c3_no_gps_amended_witness :
    show_image 800 600 "img/b.png" noGpsImage sampleMtime .notJson =
      .ok (⟨thumbnail noGpsImage.width noGpsImage.height 800 600, "01/01/2021 00:00:00",
            "Lieu non défini", none, basename "img/b.png"⟩, false) :=
  c3_no_gps_amended 800 600 "img/b.png" noGpsImage sampleMtime .notJson
    "01/01/2021 00:00:00" rfl rfl

/-- C4: the code schedules the follow-up tick with the *default* delay, not the
configured one.  Started with `delay = 2` (as `__main__` does), the first tick
is scheduled after 2000 ms but the callback is `self.start_slideshow` with no
argument, so every later tick runs with the default delay 4 — the claimed
"same configured delay on every tick" fails. -/
theorem c4_default_delay_bug :
    start_slideshow_full (fun _ => noGpsImage) (fun _ => sampleMtime) .networkFailure 800 600
        ⟨["img/a.jpg"], 0⟩ 2 =
      .ok (⟨(400, 300), "01/01/2021 00:00:00", "Lieu non défini", none, "a.jpg"⟩, false,
           ⟨["img/a.jpg"], 0⟩, 2000, start_slideshow_default_delay) ∧
    start_slideshow_default_delay ≠ 2 := by
  exact ⟨by decide, by decide⟩

/-- Every geocoding failure mode makes `get_image_location` raise. -/
lemma geo_location_fails (resp : GeoResponse) (h : resp.isFailure = true) :
    (get_image_location resp).isOk = false := by
  match resp with
  | .networkFailure => rfl
  | .notJson => rfl
  | .json none => rfl
  | .json (some []) => rfl
  | .json (some (⟨name, loc⟩ :: rest)) =>
    cases name <;> cases loc <;> first
      | rfl
      | simp [GeoResponse.isFailure] at h

/-- C2 counterexample: with an empty geocoder result set (`data == []`), the
location step raises an `IndexError` instead of returning a fallback string,
`show_image` propagates it, and the tick aborts before `self.after` runs, so
no next tick is scheduled. -/
theorem c2_geocode_counterexample :
    get_image_location (.json (some [])) = .error .indexError ∧
    show_image 800 600 "img/c.jpg" gpsImage sampleMtime (.json (some [])) =
      .error .indexError ∧
    start_slideshow_full (fun _ => gpsImage) (fun _ => sampleMtime) (.json (some [])) 800 600
        ⟨["img/c.jpg"], 0⟩ 4 = .error .indexError :=
  ⟨rfl, rfl, rfl⟩

/-- C2 as amended: for every tick in which the geocoding lookup fails (network
failure, undecodable body, missing `data`, empty result set, or a first result
lacking `name`/`locality`), `get_image_location` raises rather than returning
a fallback placeholder, and on any image that actually reaches the geocoder
(witnessed by a successful run against a well-formed response) `show_image`
propagates the failure, so the tick aborts and no next tick is scheduled. -/
theorem c2_geocode_failure_amended (resp : GeoResponse) (sw sh : Nat) (fp : String)
    (img : ImageFile) (mtime : DateTime) (frame : DisplayFrame)
    (hfail : resp.isFailure = true)
    (hok : show_image sw sh fp img mtime (.json (some [⟨some "a", some "b"⟩])) =
      .ok (frame, true)) :
    (get_image_location resp).isOk = false ∧
    (show_image sw sh fp img mtime resp).isOk = false := by
  refine ⟨geo_location_fails resp hfail, ?_⟩
  simp only [show_image] at hok ⊢
  obtain ⟨d, hd⟩ : ∃ d, get_image_date mtime (dateRawOf (parse_image_data img.rawExif)) = .ok d := by
    cases h : get_image_date mtime (dateRawOf (parse_image_data img.rawExif)) with
    | ok d => exact ⟨d, rfl⟩
    | error e => simp only [h] at hok; exact absurd hok (by simp)
  simp only [hd] at hok ⊢
  obtain ⟨g, hg⟩ : ∃ g, gpsBlockOf (parse_image_data img.rawExif) = some g := by
    cases h : gpsBlockOf (parse_image_data img.rawExif) with
    | some g => exact ⟨g, rfl⟩
    | none => simp only [h] at hok; exact absurd hok (by simp)
  simp only [hg] at hok ⊢
  obtain ⟨la, lo, al, hc⟩ : ∃ la lo al, get_image_coords g = .ok (la, lo, al) := by
    cases h : get_image_coords g with
    | ok c => exact ⟨c.1, c.2.1, c.2.2, rfl⟩
    | error e => simp only [h] at hok; exact absurd hok (by simp)
  simp only [hc]
  have hv := geo_location_fails resp hfail
  cases hl : get_image_location resp with
  | error e => rfl
  | ok s => rw [hl] at hv; simp [Except.isOk, Except.toBool] at hv

/-- Witness for C2's amended theorem: a concrete GPS-tagged image and a network
failure; the geocoding step and the whole render both fail. -/
theorem c2_geocode_failure_amended_witness :
    (get_image_location .networkFailure).isOk = false ∧
    (show_image 800 600 "img/c.jpg" gpsImage sampleMtime .networkFailure).isOk = false :=
  c2_geocode_failure_amended .networkFailure 800 600 "img/c.jpg" gpsImage sampleMtime
    ⟨thumbnail 2000 1000 800 600, "01/01/2021 00:00:00", "a, b",
      some ("Altitude : " ++ toString (pyRound (35 : ℚ)) ++ "m"), "c.jpg"⟩
    rfl rfl

/-- Pillow clamps with `max(_, 1)`, so `round_aspect` never returns less than 1. -/
lemma round_aspect_one_le (q : ℚ) (key : ℤ → ℚ) : 1 ≤ round_aspect q key :=
  le_max_right _ _

/-- For a positive input, `round_aspect` lands strictly within 1 of it. -/
lemma round_aspect_near (q : ℚ) (key : ℤ → ℚ) (hq : 0 < q) :
    |(round_aspect q key : ℚ) - q| < 1 := by
  have hf : |(⌊q⌋ : ℚ) - q| < 1 := by
    rw [abs_sub_lt_iff]
    constructor
    · linarith [Int.floor_le q]
    · linarith [Int.lt_floor_add_one q]
  have hc : |(⌈q⌉ : ℚ) - q| < 1 := by
    rw [abs_sub_lt_iff]
    constructor
    · linarith [Int.ceil_lt_add_one q]
    · linarith [Int.le_ceil q]
  rw [round_aspect]
  split
  · rcases le_or_lt 1 ⌊q⌋ with h1 | h1
    · rw [max_eq_left h1]
      exact hf
    · rw [max_eq_right h1.le]
      have hfle : (⌊q⌋ : ℚ) ≤ 0 := by
        have : ⌊q⌋ ≤ 0 := by omega
        exact_mod_cast this
      have hq1 : q < 1 := by linarith [Int.lt_floor_add_one q]
      rw [abs_sub_lt_iff]
      push_cast
      constructor <;> linarith
  · rcases le_or_lt 1 ⌈q⌉ with h1 | h1
    · rw [max_eq_left h1]
      exact hc
    · exfalso
      have := Int.ceil_pos.mpr hq
      omega

/-- For a positive input, `round_aspect` is at most the ceiling of the input. -/
lemma round_aspect_le_ceil (q : ℚ) (key : ℤ → ℚ) (hq : 0 < q) :
    round_aspect q key ≤ ⌈q⌉ := by
  have h1 : 1 ≤ ⌈q⌉ := by
    have := Int.ceil_pos.mpr hq
    omega
  rw [round_aspect]
  split
  · exact max_le (Int.floor_le_ceil q) h1
  · exact max_le le_rfl h1

/-- C8: rendering never upscales.  If the native resolution fits the display
surface in both dimensions, the displayed dimensions equal the native
resolution; otherwise the image is scaled *down* — both output dimensions are
bounded by the surface and by the native size — and the aspect ratio is
preserved up to the integer rounding of one side (the cross-product of the
output dimensions differs from that of the native dimensions by less than one
pixel row/column, i.e. by less than `max w h`). -/
theorem c8_thumbnail_no_upscale (w h sw sh : Nat)
    (hw : 1 ≤ w) (hh : 1 ≤ h) (hsw : 1 ≤ sw) (hsh : 1 ≤ sh) :
    (w ≤ sw ∧ h ≤ sh → thumbnail w h sw sh = (w, h)) ∧
    (¬(w ≤ sw ∧ h ≤ sh) →
      (thumbnail w h sw sh).1 ≤ sw ∧ (thumbnail w h sw sh).2 ≤ sh ∧
      (thumbnail w h sw sh).1 ≤ w ∧ (thumbnail w h sw sh).2 ≤ h ∧
      |((thumbnail w h sw sh).1 : ℚ) * (h : ℚ) - ((thumbnail w h sw sh).2 : ℚ) * (w : ℚ)|
        < ((max w h : ℕ) : ℚ)) := by
  have hW : (0 : ℚ) < w := by exact_mod_cast Nat.lt_of_lt_of_le Nat.zero_lt_one hw
  have hH : (0 : ℚ) < h := by exact_mod_cast Nat.lt_of_lt_of_le Nat.zero_lt_one hh
  have hSW : (0 : ℚ) < sw := by exact_mod_cast Nat.lt_of_lt_of_le Nat.zero_lt_one hsw
  have hSH : (0 : ℚ) < sh := by exact_mod_cast Nat.lt_of_lt_of_le Nat.zero_lt_one hsh
  have haspect : 0 < thumbAspect w h := div_pos hW hH
  constructor
  · intro hfit
    rw [thumbnail, if_pos ⟨hfit.1, hfit.2⟩]
  · intro hnot
    rw [thumbnail, if_neg hnot]
    by_cases hbr : thumbAspect w h ≤ (sw : ℚ) / (sh : ℚ)
    · -- the box is relatively wider: clamp the height to `sh`, round the width
      rw [if_pos hbr]
      set key := fun n : ℤ => |thumbAspect w h - (n : ℚ) / (sh : ℚ)| with hkey
      set q : ℚ := (sh : ℚ) * thumbAspect w h with hqdef
      set x := round_aspect q key with hxdef
      have hq : 0 < q := mul_pos hSH haspect
      have hx1 : 1 ≤ x := round_aspect_one_le q key
      have hnear := round_aspect_near q key hq
      have hceil := round_aspect_le_ceil q key hq
      have hwsh : (w : ℚ) * sh ≤ sw * h := by
        rw [thumbAspect, div_le_div_iff₀ hH hSH] at hbr
        exact hbr
      have hqsw : q ≤ (sw : ℚ) := by
        rw [hqdef, thumbAspect, mul_div_assoc', div_le_iff₀ hH]
        linarith
      have hshh : sh < h := by
        by_contra hle
        push_neg at hle
        apply hnot
        refine ⟨?_, hle⟩
        have hcast : (h : ℚ) ≤ sh := by exact_mod_cast hle
        have : (w : ℚ) ≤ sw := by nlinarith
        exact_mod_cast this
      have hqw : q < (w : ℚ) := by
        rw [hqdef, thumbAspect, mul_div_assoc', div_lt_iff₀ hH]
        have : (sh : ℚ) < h := by exact_mod_cast hshh
        nlinarith
      have hxsw : x ≤ (sw : ℤ) := le_trans hceil (Int.ceil_le.mpr (by push_cast; linarith))
      have hxw : x ≤ (w : ℤ) := le_trans hceil (Int.ceil_le.mpr (by push_cast; linarith))
      have hxt : ((x.toNat : ℕ) : ℚ) = (x : ℚ) := by
        have h0 : (0 : ℤ) ≤ x := by linarith
        exact_mod_cast congrArg (fun z : ℤ => (z : ℚ)) (Int.toNat_of_nonneg h0)
      have hqh : q * h = (sh : ℚ) * w := by
        rw [hqdef, thumbAspect]
        field_simp
      refine ⟨Int.toNat_le.mpr hxsw, le_rfl, Int.toNat_le.mpr hxw, hshh.le, ?_⟩
      show |((x.toNat : ℕ) : ℚ) * h - (sh : ℚ) * w| < ((max w h : ℕ) : ℚ)
      have hchain : |((x : ℚ)) * h - (sh : ℚ) * w| < (h : ℚ) := by
        calc |(x : ℚ) * h - (sh : ℚ) * w| = |((x : ℚ) - q) * h| := by rw [sub_mul, hqh]
          _ = |(x : ℚ) - q| * |(h : ℚ)| := abs_mul _ _
          _ = |(x : ℚ) - q| * h := by rw [abs_of_pos hH]
          _ < 1 * h := mul_lt_mul_of_pos_right hnear hH
          _ = h := one_mul _
      rw [hxt]
      refine lt_of_lt_of_le hchain ?_
      rw [Nat.cast_max]
      exact le_max_right _ _
    · -- the box is relatively taller: clamp the width to `sw`, round the height
      rw [if_neg hbr]
      push_neg at hbr
      set key := fun n : ℤ => if n = 0 then (0 : ℚ) else |thumbAspect w h - (sw : ℚ) / (n : ℚ)|
        with hkey
      set q : ℚ := (sw : ℚ) / thumbAspect w h with hqdef
      set y := round_aspect q key with hydef
      have hqeq : q = (sw : ℚ) * h / w := by
        rw [hqdef, thumbAspect, div_div_eq_mul_div]
      have hq : 0 < q := div_pos hSW haspect
      have hy1 : 1 ≤ y := round_aspect_one_le q key
      have hnear := round_aspect_near q key hq
      have hceil := round_aspect_le_ceil q key hq
      have hswh : (sw : ℚ) * h < w * sh := by
        rw [thumbAspect, div_lt_div_iff₀ hSH hH] at hbr
        linarith
      have hqsh : q < (sh : ℚ) := by
        rw [hqeq, div_lt_iff₀ hW]
        linarith
      have hsww : sw < w := by
        by_contra hle
        push_neg at hle
        apply hnot
        refine ⟨hle, ?_⟩
        have hcast : (w : ℚ) ≤ sw := by exact_mod_cast hle
        have : (h : ℚ) < sh := by nlinarith
        exact_mod_cast this.le
      have hqh : q < (h : ℚ) := by
        rw [hqeq, div_lt_iff₀ hW]
        have : (sw : ℚ) < w := by exact_mod_cast hsww
        nlinarith
      have hysh : y ≤ (sh : ℤ) := le_trans hceil (Int.ceil_le.mpr (by push_cast; linarith))
      have hyh : y ≤ (h : ℤ) := le_trans hceil (Int.ceil_le.mpr (by push_cast; linarith))
      have hyt : ((y.toNat : ℕ) : ℚ) = (y : ℚ) := by
        have h0 : (0 : ℤ) ≤ y := by linarith
        exact_mod_cast congrArg (fun z : ℤ => (z : ℚ)) (Int.toNat_of_nonneg h0)
      have hqw : q * w = (sw : ℚ) * h := by
        rw [hqeq]
        field_simp
      refine ⟨le_rfl, Int.toNat_le.mpr hysh, hsww.le, Int.toNat_le.mpr hyh, ?_⟩
      show |((sw : ℕ) : ℚ) * h - ((y.toNat : ℕ) : ℚ) * w| < ((max w h : ℕ) : ℚ)
      have hchain : |((sw : ℕ) : ℚ) * h - (y : ℚ) * w| < (w : ℚ) := by
        calc |((sw : ℕ) : ℚ) * h - (y : ℚ) * w| = |(q - (y : ℚ)) * w| := by rw [sub_mul, hqw]
          _ = |q - (y : ℚ)| * |(w : ℚ)| := abs_mul _ _
          _ = |(y : ℚ) - q| * w := by rw [abs_of_pos hW, abs_sub_comm]
          _ < 1 * w := mul_lt_mul_of_pos_right hnear hW
          _ = w := one_mul _
      rw [hyt]
      refine lt_of_lt_of_le hchain ?_
      rw [Nat.cast_max]
      exact le_max_left _ _

/-- Witness for C8 at concrete sizes: a 20×10 image already fits a 100×100
surface and is displayed at its native 20×10. -/
theorem c8_thumbnail_no_upscale_witness : thumbnail 20 10 100 100 = (20, 10) :=
  (c8_thumbnail_no_upscale 20 10 100 100 (by norm_num) (by norm_num) (by norm_num)
    (by norm_num)).1 (by norm_num)
